import Mathlib

/-!
Shallow embedding of the HealthMax Netlify serverless proxy handlers.

The repository contains three near-duplicate request handlers:
* `netlify/functions/gemini-proxy.js` (embedded here as `HealthMax.GeminiProxy`),
* `netlify/functions/gemini-recommendations-proxy.js` (`HealthMax.GeminiRecommendationsProxy`),
* an unnamed variant, `src/unnamed/part_000` (`HealthMax.Part000`).

Each handler validates the HTTP method and body, reads an API key from the
process environment, issues one outbound call to the Gemini API and relays
the result.  JavaScript strings are modelled as Lean strings (sequences of
Unicode scalar values); `JSON.parse` of the request body and the outbound
`fetch` call are modelled as oracle parameters of the handler, so theorems
quantify over every possible behaviour of those externals.  JavaScript
truthiness of the optional string fields involved (`event.body`, `prompt`,
the API key, `parts[0].text`) is: `undefined`/`null` and the empty string
are falsy, every other string is truthy.
-/

namespace HealthMax

/-- Characters removed by JavaScript `String.prototype.trim`: the WhiteSpace
and LineTerminator productions of ECMA-262. -/
def jsWhitespaceChar (c : Char) : Bool :=
  c = ' ' || c = '\t' || c = '\n' || c = '\r' || c = '\x0b' || c = '\x0c' ||
  c = '\u00A0' || c = '\uFEFF' || c = '\u1680' || c = '\u2000' || c = '\u2001' ||
  c = '\u2002' || c = '\u2003' || c = '\u2004' || c = '\u2005' || c = '\u2006' ||
  c = '\u2007' || c = '\u2008' || c = '\u2009' || c = '\u200A' || c = '\u2028' ||
  c = '\u2029' || c = '\u202F' || c = '\u205F' || c = '\u3000'

/-- JavaScript `s.startsWith(p)` (no position argument). -/
def jsStartsWith (s p : String) : Bool :=
  p.data.isPrefixOf s.data

/-- JavaScript `s.endsWith(p)` (no position argument). -/
def jsEndsWith (s p : String) : Bool :=
  p.data.isSuffixOf s.data

/-- JavaScript `s.substring(n)` for `0 ≤ n`. -/
def jsSubstringFrom (s : String) (n : Nat) : String :=
  String.mk (s.data.drop n)

/-- JavaScript `s.substring(0, s.length - n)`; a negative end index clamps
to 0, matched here by truncated `Nat` subtraction. -/
def jsDropRight (s : String) (n : Nat) : String :=
  String.mk (s.data.take (s.length - n))

/-- JavaScript `s.trim()`. -/
def jsTrim (s : String) : String :=
  String.mk (((s.data.dropWhile jsWhitespaceChar).reverse.dropWhile jsWhitespaceChar).reverse)

/-- JavaScript truthiness of an optional string: `undefined` and `""` are
falsy, every other string is truthy. -/
def strTruthy : Option String → Bool
  | none => false
  | some s => !s.data.isEmpty

/-- The inbound Netlify event: HTTP method and optional raw body string. -/
structure Event where
  httpMethod : String
  body : Option String
deriving DecidableEq

/-- Process environment: the optional `GEMINI_API_KEY` variable. -/
structure Env where
  geminiApiKey : Option String
deriving DecidableEq

/-- The parsed request body as far as the handlers inspect it: the optional
`prompt` field obtained by destructuring `JSON.parse(event.body)`. -/
structure RequestBody where
  prompt : Option String
deriving DecidableEq

/-- One `parts` entry of the outbound payload. -/
structure PayloadPart where
  text : Option String
deriving DecidableEq

/-- One `contents` entry of the outbound payload: optional `role` plus parts. -/
structure ContentItem where
  role : Option String
  parts : List PayloadPart
deriving DecidableEq

/-- The `generationConfig` object of the outbound payload. -/
structure GenerationConfig where
  responseMimeType : Option String
  maxOutputTokens : Nat
deriving DecidableEq

/-- The JSON payload sent to the Gemini API. -/
structure UpstreamPayload where
  contents : List ContentItem
  generationConfig : GenerationConfig
deriving DecidableEq

/-- One `parts` entry of a Gemini candidate. -/
structure ResultPart where
  text : Option String
deriving DecidableEq

/-- The `content` object of a Gemini candidate. -/
structure ResultContent where
  parts : Option (List ResultPart)
deriving DecidableEq

/-- One entry of the `candidates` array of a Gemini response. -/
structure Candidate where
  content : Option ResultContent
deriving DecidableEq

/-- The `error` object of a Gemini response. -/
structure ApiError where
  message : Option String
deriving DecidableEq

/-- The parsed JSON body of the upstream Gemini response, as far as the
handlers inspect it. -/
structure GeminiResult where
  candidates : Option (List Candidate)
  error : Option ApiError
deriving DecidableEq

/-- Outcome of the single outbound `fetch`: either the promise rejects with
an error message (network failure, or `response.json()` failing to parse,
folded into the `Except` of `reply`), or it resolves with an HTTP status and
the outcome of parsing the upstream body as JSON. -/
inductive FetchOutcome where
  | netError (message : String)
  | reply (status : Nat) (result : Except String GeminiResult)

/-- The JSON object serialized into the response body.  One constructor per
distinct object literal in the sources; an `Option` field models a property
whose value may be `undefined` (dropped by `JSON.stringify`). -/
inductive RespBody where
  | msg (message : String)
  | msgDetails (message : String) (details : GeminiResult)
  | msgError (message : String) (error : String)
  | successTrue (response : Option String)
  | successFalse (message : String)
deriving DecidableEq

/-- The return value of a handler.  Every response in the sources carries the
header `Content-Type: application/json`. -/
structure Response where
  statusCode : Nat
  body : RespBody
  contentType : String := "application/json"
deriving DecidableEq

/-- Whether the response body object carries the raw parsed upstream body
(the `details` property of gemini-proxy.js line 96 and
gemini-recommendations-proxy.js line 77); the other body shapes carry no
copy of the upstream response. -/
def carriesUpstreamDetails : RespBody → Bool
  | .msgDetails _ _ => true
  | _ => false

/-- The success-shape test shared verbatim by gemini-proxy.js (lines 65-68)
and gemini-recommendations-proxy.js (lines 64-67):
`result.candidates && result.candidates.length > 0 &&
result.candidates[0].content && result.candidates[0].content.parts &&
result.candidates[0].content.parts.length > 0 &&
result.candidates[0].content.parts[0].text`.
The final conjunct is a truthiness test, so an empty-string text fails it. -/
def geminiShapeOk (r : GeminiResult) : Bool :=
  match r.candidates with
  | some (c :: _) =>
    match c.content with
    | some content =>
      match content.parts with
      | some (p :: _) => strTruthy p.text
      | _ => false
    | none => false
  | _ => false

/-- The text field `result.candidates[0].content.parts[0].text` read by the
success branches, as an optional value (`none` when any link is missing). -/
def firstText (r : GeminiResult) : Option String :=
  match r.candidates with
  | some (c :: _) =>
    match c.content with
    | some content =>
      match content.parts with
      | some (p :: _) => p.text
      | _ => none
    | none => none
  | _ => none

namespace GeminiProxy

/-- Start marker stripped by gemini-proxy.js (line 74). -/
def jsonStartMarker : String := "```json"

/-- End marker stripped by gemini-proxy.js (line 75). -/
def jsonEndMarker : String := "```"

/-- The markdown-fence stripping block of gemini-proxy.js (lines 77-83):
strip the literal prefix marker if present, then strip the literal suffix
marker if present, then trim surrounding whitespace. -/
def stripFence (text : String) : String :=
  let t1 := if jsStartsWith text jsonStartMarker
    then jsSubstringFrom text jsonStartMarker.length else text
  let t2 := if jsEndsWith t1 jsonEndMarker
    then jsDropRight t1 jsonEndMarker.length else t1
  jsTrim t2

/-- The outbound payload of gemini-proxy.js (lines 44-50): a single user
content item carrying the prompt, with structured-output generation config. -/
def geminiPayload (prompt : Option String) : UpstreamPayload :=
  { contents := [{ role := some "user", parts := [{ text := prompt }] }],
    generationConfig :=
      { responseMimeType := some "application/json", maxOutputTokens := 4096 } }

/-- The Gemini endpoint URL of gemini-proxy.js (line 53), with the API key
interpolated as a query parameter. -/
def geminiApiUrl (key : String) : String :=
  "https://generativelanguage.googleapis.com/v1beta/models/gemini-2.5-flash-preview-05-20:generateContent?key=" ++ key

/-- The handler of gemini-proxy.js.  `jsonParse` is the oracle for
`JSON.parse` applied to the (non-empty) request body; `fetch` is the oracle
for the single outbound call, receiving the URL and payload the code builds.
A `throw` from `JSON.parse`, `fetch` or `response.json()` lands in the catch
block (lines 101-108).  `!event.body` is true for a missing and for an
empty-string body. -/
def handler (jsonParse : String → Except String RequestBody)
    (fetch : String → UpstreamPayload → FetchOutcome)
    (env : Env) (event : Event) : Response :=
  if event.httpMethod ≠ "POST" then
    { statusCode := 405, body := .msg "Only POST requests are allowed." }
  else
    match event.body with
    | none => { statusCode := 400, body := .msg "Request body is missing." }
    | some bodyStr =>
      if bodyStr.data.isEmpty then
        { statusCode := 400, body := .msg "Request body is missing." }
      else
        match jsonParse bodyStr with
        | .error e =>
          { statusCode := 500, body := .msgError "Internal server error." e }
        | .ok requestBody =>
          if !strTruthy env.geminiApiKey then
            { statusCode := 500,
              body := .msg "Server configuration error: API key missing." }
          else
            match fetch (geminiApiUrl (env.geminiApiKey.getD ""))
                (geminiPayload requestBody.prompt) with
            | .netError e =>
              { statusCode := 500, body := .msgError "Internal server error." e }
            | .reply _ (.error e) =>
              { statusCode := 500, body := .msgError "Internal server error." e }
            | .reply _ (.ok result) =>
              if geminiShapeOk result then
                { statusCode := 200,
                  body := .successTrue ((firstText result).map stripFence) }
              else
                { statusCode := 500,
                  body := .msgDetails
                    "Failed to get a valid response from Gemini API." result }

end GeminiProxy

namespace GeminiRecommendationsProxy

/-- The outbound payload of gemini-recommendations-proxy.js (lines 43-49);
identical to the gemini-proxy.js payload. -/
def geminiPayload (prompt : Option String) : UpstreamPayload :=
  { contents := [{ role := some "user", parts := [{ text := prompt }] }],
    generationConfig :=
      { responseMimeType := some "application/json", maxOutputTokens := 4096 } }

/-- The Gemini endpoint URL of gemini-recommendations-proxy.js (line 52). -/
def geminiApiUrl (key : String) : String :=
  "https://generativelanguage.googleapis.com/v1beta/models/gemini-2.5-flash-preview-05-20:generateContent?key=" ++ key

/-- The handler of gemini-recommendations-proxy.js: identical to the
gemini-proxy.js handler except that the success branch (lines 68-72) returns
the extracted text verbatim, with no fence stripping. -/
def handler (jsonParse : String → Except String RequestBody)
    (fetch : String → UpstreamPayload → FetchOutcome)
    (env : Env) (event : Event) : Response :=
  if event.httpMethod ≠ "POST" then
    { statusCode := 405, body := .msg "Only POST requests are allowed." }
  else
    match event.body with
    | none => { statusCode := 400, body := .msg "Request body is missing." }
    | some bodyStr =>
      if bodyStr.data.isEmpty then
        { statusCode := 400, body := .msg "Request body is missing." }
      else
        match jsonParse bodyStr with
        | .error e =>
          { statusCode := 500, body := .msgError "Internal server error." e }
        | .ok requestBody =>
          if !strTruthy env.geminiApiKey then
            { statusCode := 500,
              body := .msg "Server configuration error: API key missing." }
          else
            match fetch (geminiApiUrl (env.geminiApiKey.getD ""))
                (geminiPayload requestBody.prompt) with
            | .netError e =>
              { statusCode := 500, body := .msgError "Internal server error." e }
            | .reply _ (.error e) =>
              { statusCode := 500, body := .msgError "Internal server error." e }
            | .reply _ (.ok result) =>
              if geminiShapeOk result then
                { statusCode := 200, body := .successTrue (firstText result) }
              else
                { statusCode := 500,
                  body := .msgDetails
                    "Failed to get a valid response from Gemini API." result }

end GeminiRecommendationsProxy

namespace Part000

/-- The outbound payload of part_000 (lines 64-70): no `role` property,
same structured-output generation config. -/
def payload (prompt : Option String) : UpstreamPayload :=
  { contents := [{ role := none, parts := [{ text := prompt }] }],
    generationConfig :=
      { responseMimeType := some "application/json", maxOutputTokens := 4096 } }

/-- The Gemini endpoint URL of part_000 (line 59). -/
def apiUrl (key : String) : String :=
  "https://generativelanguage.googleapis.com/v1beta/models/gemini-2.5-flash-preview-05-20:generateContent?key=" ++ key

/-- The `response.ok` test of the WHATWG fetch Response used at part_000
line 82: status in the range 200-299. -/
def responseOk (status : Nat) : Bool :=
  200 ≤ status && status ≤ 299

/-- The shape test of part_000 (lines 82-84), without the `response.ok`
conjunct: `result.candidates && result.candidates.length > 0 &&
result.candidates[0].content && result.candidates[0].content.parts &&
result.candidates[0].content.parts.length > 0`.  Unlike the other two
variants, the text field itself is not tested. -/
def shapeOk (r : GeminiResult) : Bool :=
  match r.candidates with
  | some (c :: _) =>
    match c.content with
    | some content =>
      match content.parts with
      | some (_ :: _) => true
      | _ => false
    | none => false
  | _ => false

/-- The failure message of part_000 line 101:
`result.error?.message || "Unexpected response from Gemini API."` (the
source spells the fallback with single quotes). -/
def errorMessage (r : GeminiResult) : String :=
  match r.error with
  | some err =>
    match err.message with
    | some m => if m.data.isEmpty then "Unexpected response from Gemini API." else m
    | none => "Unexpected response from Gemini API."
  | none => "Unexpected response from Gemini API."

/-- The catch-block message of part_000 line 110:
`error.message || "Internal Server Error during API call."` (the source
spells the fallback with single quotes). -/
def catchMessage (e : String) : String :=
  if e.data.isEmpty then "Internal Server Error during API call." else e

/-- The handler of part_000.  Differences from the other two variants:
the body is parsed inside its own try/catch returning 400 (a missing body
also lands there, because `JSON.parse(undefined)` throws a SyntaxError);
a falsy `prompt` is rejected with 400 before the API-key check; the success
branch additionally requires `response.ok` but does not test the text
field; the failure branch echoes `response.status || 500` and reports
`result.error?.message` instead of the raw upstream body. -/
def handler (jsonParse : String → Except String RequestBody)
    (fetch : String → UpstreamPayload → FetchOutcome)
    (env : Env) (event : Event) : Response :=
  if event.httpMethod ≠ "POST" then
    { statusCode := 405,
      body := .successFalse "Method Not Allowed. Only POST requests are supported." }
  else
    match event.body with
    | none =>
      { statusCode := 400, body := .successFalse "Invalid JSON in request body." }
    | some bodyStr =>
      match jsonParse bodyStr with
      | .error _ =>
        { statusCode := 400, body := .successFalse "Invalid JSON in request body." }
      | .ok requestBody =>
        if !strTruthy requestBody.prompt then
          { statusCode := 400,
            body := .successFalse "Missing \"prompt\" in request body." }
        else if !strTruthy env.geminiApiKey then
          { statusCode := 500,
            body := .successFalse "Server configuration error: Gemini API Key is not set." }
        else
          match fetch (apiUrl (env.geminiApiKey.getD ""))
              (payload requestBody.prompt) with
          | .netError e =>
            { statusCode := 500, body := .successFalse (catchMessage e) }
          | .reply _ (.error e) =>
            { statusCode := 500, body := .successFalse (catchMessage e) }
          | .reply status (.ok result) =>
            if responseOk status && shapeOk result then
              { statusCode := 200, body := .successTrue (firstText result) }
            else
              { statusCode := if status = 0 then 500 else status,
                body := .successFalse (errorMessage result) }

end Part000

end HealthMax

namespace HealthMax

/-- Oracle for `JSON.parse` on a request body that is not valid JSON (such
as the literal body "x"): a SyntaxError is thrown. -/
def parseFails : String → Except String RequestBody :=
  fun _ => .error "SyntaxError: Unexpected token x in JSON at position 0"

/-- Oracle for `JSON.parse` on a request body parsing to an object whose
`prompt` property is the string "hi". -/
def parsePromptHi : String → Except String RequestBody :=
  fun _ => .ok { prompt := some "hi" }

/-- Oracle for `JSON.parse` on a request body parsing to an object with no
`prompt` property, such as the document with no members. -/
def parseNoPrompt : String → Except String RequestBody :=
  fun _ => .ok { prompt := none }

/-- C5 counterexample: no variant omits `responseMimeType`; all three
outbound payload builders set it, already at the concrete prompt "p", so no
supported configuration is in embedded mode. -/
theorem C5_counterexample :
    (GeminiProxy.geminiPayload (some "p")).generationConfig.responseMimeType ≠ none ∧
    (GeminiRecommendationsProxy.geminiPayload (some "p")).generationConfig.responseMimeType ≠ none ∧
    (Part000.payload (some "p")).generationConfig.responseMimeType ≠ none := by
  decide

/-- C5 (amended): every variant builds the upstream payload in structured
mode, with `generationConfig.responseMimeType = "application/json"` and
`maxOutputTokens = 4096`; no variant omits `responseMimeType`. -/
theorem C5_structured_mode_only (prompt : Option String) :
    (GeminiProxy.geminiPayload prompt).generationConfig =
      { responseMimeType := some "application/json", maxOutputTokens := 4096 } ∧
    (GeminiRecommendationsProxy.geminiPayload prompt).generationConfig =
      { responseMimeType := some "application/json", maxOutputTokens := 4096 } ∧
    (Part000.payload prompt).generationConfig =
      { responseMimeType := some "application/json", maxOutputTokens := 4096 } := by
  refine ⟨rfl, rfl, rfl⟩

/-- C6: fence-stripping maps the text consisting of the start marker, a
newline, the JSON object with member score 0.75, a newline and the end
marker, to exactly that JSON object text, with no leading or trailing
whitespace or markers remaining. -/
theorem C6_fence_stripping_example :
    GeminiProxy.stripFence "```json\n\x7b\"score\":0.75\x7d\n```" = "\x7b\"score\":0.75\x7d" := by
  decide

/-- C7: fence-stripping uses literal prefix/suffix matching.  A text that
neither starts with the start marker nor ends with the end marker has
neither marker stripped (only the unconditional trim applies, so markers
contained mid-string survive); the two checks are independent, so a text
with only one of the two markers has only that marker stripped; and the
text "hello" is mapped to "hello" unchanged. -/
theorem C7_fence_stripping_literal :
    (∀ t : String, jsStartsWith t GeminiProxy.jsonStartMarker = false →
      jsEndsWith t GeminiProxy.jsonEndMarker = false →
      GeminiProxy.stripFence t = jsTrim t) ∧
    (∀ t : String, jsStartsWith t GeminiProxy.jsonStartMarker = true →
      jsEndsWith (jsSubstringFrom t GeminiProxy.jsonStartMarker.length)
        GeminiProxy.jsonEndMarker = false →
      GeminiProxy.stripFence t =
        jsTrim (jsSubstringFrom t GeminiProxy.jsonStartMarker.length)) ∧
    (∀ t : String, jsStartsWith t GeminiProxy.jsonStartMarker = false →
      jsEndsWith t GeminiProxy.jsonEndMarker = true →
      GeminiProxy.stripFence t =
        jsTrim (jsDropRight t GeminiProxy.jsonEndMarker.length)) ∧
    GeminiProxy.stripFence "hello" = "hello" := by
  refine ⟨?_, ?_, ?_, by decide⟩
  · intro t h1 h2
    simp [GeminiProxy.stripFence, h1, h2]
  · intro t h1 h2
    simp [GeminiProxy.stripFence, h1, h2]
  · intro t h1 h2
    simp [GeminiProxy.stripFence, h1, h2]

/-- C7 witness: the three universal parts instantiated at concrete texts:
a text carrying both markers mid-string only is merely trimmed, a text with
only the start marker loses only that marker, and a text with only the end
marker loses only that marker. -/
theorem C7_fence_stripping_literal_witness :
    GeminiProxy.stripFence "a ```json b ``` c" = "a ```json b ``` c" ∧
    GeminiProxy.stripFence "```json only-start" = "only-start" ∧
    GeminiProxy.stripFence "only-end ```" = "only-end" := by
  refine ⟨?_, ?_, ?_⟩
  · exact (C7_fence_stripping_literal.1 "a ```json b ``` c"
      (by decide) (by decide)).trans (by decide)
  · exact (C7_fence_stripping_literal.2.1 "```json only-start"
      (by decide) (by decide)).trans (by decide)
  · exact (C7_fence_stripping_literal.2.2.1 "only-end ```"
      (by decide) (by decide)).trans (by decide)

/-- C8: every request whose HTTP method is not POST is rejected by all
three handlers with status 405 and an explanatory message; the response is
a constant, independent of the body, the environment, the parse oracle and
the fetch oracle, so no further processing takes place. -/
theorem C8_non_post_rejected (jsonParse : String → Except String RequestBody)
    (fetch : String → UpstreamPayload → FetchOutcome) (env : Env) (event : Event)
    (hm : event.httpMethod ≠ "POST") :
    GeminiProxy.handler jsonParse fetch env event =
      { statusCode := 405, body := .msg "Only POST requests are allowed." } ∧
    GeminiRecommendationsProxy.handler jsonParse fetch env event =
      { statusCode := 405, body := .msg "Only POST requests are allowed." } ∧
    Part000.handler jsonParse fetch env event =
      { statusCode := 405,
        body := .successFalse "Method Not Allowed. Only POST requests are supported." } := by
  refine ⟨?_, ?_, ?_⟩ <;>
    simp [GeminiProxy.handler, GeminiRecommendationsProxy.handler, Part000.handler, hm]

/-- C8 witness: a GET request with a parseable body and a configured key is
still rejected with 405 by all three handlers. -/
theorem C8_non_post_rejected_witness :
    GeminiProxy.handler parsePromptHi (fun _ _ => .netError "down")
      { geminiApiKey := some "k" } { httpMethod := "GET", body := some "x" } =
      { statusCode := 405, body := .msg "Only POST requests are allowed." } ∧
    GeminiRecommendationsProxy.handler parsePromptHi (fun _ _ => .netError "down")
      { geminiApiKey := some "k" } { httpMethod := "GET", body := some "x" } =
      { statusCode := 405, body := .msg "Only POST requests are allowed." } ∧
    Part000.handler parsePromptHi (fun _ _ => .netError "down")
      { geminiApiKey := some "k" } { httpMethod := "GET", body := some "x" } =
      { statusCode := 405,
        body := .successFalse "Method Not Allowed. Only POST requests are supported." } :=
  C8_non_post_rejected parsePromptHi (fun _ _ => .netError "down")
    { geminiApiKey := some "k" } { httpMethod := "GET", body := some "x" } (by decide)

/-- C1 counterexample: a POST request whose body "x" is present but not
valid JSON gets a 500 from gemini-proxy.js, not a 400: the SyntaxError
thrown by `JSON.parse` lands in the generic catch block of lines 101-108. -/
theorem C1_counterexample :
    (GeminiProxy.handler parseFails (fun _ _ => .netError "down")
        { geminiApiKey := some "k" } { httpMethod := "POST", body := some "x" }).statusCode = 500 ∧
    (GeminiProxy.handler parseFails (fun _ _ => .netError "down")
        { geminiApiKey := some "k" } { httpMethod := "POST", body := some "x" }).statusCode ≠ 400 := by
  exact ⟨by decide, by decide⟩

/-- C1 (amended): for POST requests, a missing body yields 400 from all
three handlers; a present, non-empty body that is not valid JSON yields 400
from part_000 (whose body parse has a dedicated catch) but 500 from
gemini-proxy.js and gemini-recommendations-proxy.js (whose body parse
throws into the generic catch block). -/
theorem C1_missing_or_invalid_body (jsonParse : String → Except String RequestBody)
    (fetch : String → UpstreamPayload → FetchOutcome) (env : Env) (event : Event)
    (hm : event.httpMethod = "POST") :
    (event.body = none →
      (GeminiProxy.handler jsonParse fetch env event).statusCode = 400 ∧
      (GeminiRecommendationsProxy.handler jsonParse fetch env event).statusCode = 400 ∧
      (Part000.handler jsonParse fetch env event).statusCode = 400) ∧
    (∀ b e, event.body = some b → b.data.isEmpty = false → jsonParse b = .error e →
      (GeminiProxy.handler jsonParse fetch env event).statusCode = 500 ∧
      (GeminiRecommendationsProxy.handler jsonParse fetch env event).statusCode = 500 ∧
      (Part000.handler jsonParse fetch env event).statusCode = 400) := by
  constructor
  · intro h0
    refine ⟨?_, ?_, ?_⟩ <;>
      simp [GeminiProxy.handler, GeminiRecommendationsProxy.handler, Part000.handler, hm, h0]
  · intro b e hb hbe hp
    refine ⟨?_, ?_, ?_⟩ <;>
      simp [GeminiProxy.handler, GeminiRecommendationsProxy.handler, Part000.handler,
        hm, hb, hbe, hp]

/-- C1 witness: the amended theorem applied to a POST request with no body,
and to one with the non-JSON body "x". -/
theorem C1_missing_or_invalid_body_witness :
    (GeminiProxy.handler parseFails (fun _ _ => .netError "down")
        { geminiApiKey := some "k" } { httpMethod := "POST", body := none }).statusCode = 400 ∧
    (Part000.handler parseFails (fun _ _ => .netError "down")
        { geminiApiKey := some "k" } { httpMethod := "POST", body := some "x" }).statusCode = 400 := by
  constructor
  · exact ((C1_missing_or_invalid_body parseFails (fun _ _ => .netError "down")
      { geminiApiKey := some "k" } { httpMethod := "POST", body := none } rfl).1 rfl).1
  · exact ((C1_missing_or_invalid_body parseFails (fun _ _ => .netError "down")
      { geminiApiKey := some "k" } { httpMethod := "POST", body := some "x" } rfl).2
      "x" _ rfl (by decide) rfl).2.2

/-- C3 counterexample: with the API key absent AND the prompt absent, the
part_000 handler returns 400 ("Missing prompt"), not 500: its prompt check
precedes the key check. -/
theorem C3_counterexample :
    (Part000.handler parseNoPrompt (fun _ _ => .netError "down") { geminiApiKey := none }
        { httpMethod := "POST", body := some "\x7b\x7d" }).statusCode = 400 ∧
    (Part000.handler parseNoPrompt (fun _ _ => .netError "down") { geminiApiKey := none }
        { httpMethod := "POST", body := some "\x7b\x7d" }).statusCode ≠ 500 := by
  exact ⟨by decide, by decide⟩

/-- C3 (amended): for POST requests with a parseable body and no configured
API key, gemini-proxy.js and gemini-recommendations-proxy.js return 500
("Server configuration error") regardless of the prompt, which they never
validate; part_000 checks the prompt first, returning 400 when the prompt
is missing or empty even though the key is also absent, and returns the
configuration-error 500 only when the prompt is truthy. -/
theorem C3_missing_key (jsonParse : String → Except String RequestBody)
    (fetch : String → UpstreamPayload → FetchOutcome) (env : Env) (event : Event)
    (b : String) (rb : RequestBody)
    (hm : event.httpMethod = "POST") (hb : event.body = some b)
    (hbe : b.data.isEmpty = false) (hp : jsonParse b = .ok rb)
    (hk : strTruthy env.geminiApiKey = false) :
    GeminiProxy.handler jsonParse fetch env event =
      { statusCode := 500, body := .msg "Server configuration error: API key missing." } ∧
    GeminiRecommendationsProxy.handler jsonParse fetch env event =
      { statusCode := 500, body := .msg "Server configuration error: API key missing." } ∧
    (strTruthy rb.prompt = false →
      Part000.handler jsonParse fetch env event =
        { statusCode := 400, body := .successFalse "Missing \"prompt\" in request body." }) ∧
    (strTruthy rb.prompt = true →
      Part000.handler jsonParse fetch env event =
        { statusCode := 500,
          body := .successFalse "Server configuration error: Gemini API Key is not set." }) := by
  refine ⟨?_, ?_, ?_, ?_⟩
  · simp [GeminiProxy.handler, hm, hb, hbe, hp, hk]
  · simp [GeminiRecommendationsProxy.handler, hm, hb, hbe, hp, hk]
  · intro hpr
    simp [Part000.handler, hm, hb, hp, hpr]
  · intro hpr
    simp [Part000.handler, hm, hb, hp, hpr, hk]

/-- C3 witness: the amended theorem applied to a keyless environment, once
with a valid prompt (all variants 500) and once with part_000 and a missing
prompt (400). -/
theorem C3_missing_key_witness :
    GeminiProxy.handler parsePromptHi (fun _ _ => .netError "down") { geminiApiKey := none }
      { httpMethod := "POST", body := some "\x7b\"prompt\":\"hi\"\x7d" } =
      { statusCode := 500, body := .msg "Server configuration error: API key missing." } ∧
    Part000.handler parsePromptHi (fun _ _ => .netError "down") { geminiApiKey := none }
      { httpMethod := "POST", body := some "\x7b\"prompt\":\"hi\"\x7d" } =
      { statusCode := 500,
        body := .successFalse "Server configuration error: Gemini API Key is not set." } ∧
    Part000.handler parseNoPrompt (fun _ _ => .netError "down") { geminiApiKey := none }
      { httpMethod := "POST", body := some "\x7b\x7d" } =
      { statusCode := 400, body := .successFalse "Missing \"prompt\" in request body." } := by
  refine ⟨?_, ?_, ?_⟩
  · exact (C3_missing_key parsePromptHi (fun _ _ => .netError "down") { geminiApiKey := none }
      { httpMethod := "POST", body := some "\x7b\"prompt\":\"hi\"\x7d" }
      "\x7b\"prompt\":\"hi\"\x7d" { prompt := some "hi" } rfl rfl (by decide) rfl rfl).1
  · exact (C3_missing_key parsePromptHi (fun _ _ => .netError "down") { geminiApiKey := none }
      { httpMethod := "POST", body := some "\x7b\"prompt\":\"hi\"\x7d" }
      "\x7b\"prompt\":\"hi\"\x7d" { prompt := some "hi" } rfl rfl (by decide) rfl
      rfl).2.2.2 (by decide)
  · exact (C3_missing_key parseNoPrompt (fun _ _ => .netError "down") { geminiApiKey := none }
      { httpMethod := "POST", body := some "\x7b\x7d" }
      "\x7b\x7d" { prompt := none } rfl rfl (by decide) rfl rfl).2.2.1 rfl

/-- C4 counterexample: on a shape-validation failure (upstream reply with
no `candidates`), part_000 echoes the upstream HTTP status (404) but its
response body carries only a message, not the raw upstream body: no
response-body shape of that variant includes the upstream result. -/
theorem C4_counterexample :
    Part000.handler parsePromptHi
        (fun _ _ => .reply 404 (.ok { candidates := none, error := none }))
        { geminiApiKey := some "k" }
        { httpMethod := "POST", body := some "\x7b\"prompt\":\"hi\"\x7d" } =
      { statusCode := 404, body := .successFalse "Unexpected response from Gemini API." } ∧
    carriesUpstreamDetails (RespBody.successFalse "Unexpected response from Gemini API.") = false := by
  exact ⟨by decide, by decide⟩

/-- C4 (amended): on shape-validation failure, gemini-proxy.js and
gemini-recommendations-proxy.js return 500 with a message and the raw
parsed upstream body under `details`; part_000 echoes the upstream HTTP
status (500 when that status is the falsy 0) with the upstream error
message (or a fixed fallback), but does not include the raw upstream body. -/
theorem C4_shape_failure (jsonParse : String → Except String RequestBody)
    (env : Env) (event : Event) (b : String) (rb : RequestBody)
    (status : Nat) (result : GeminiResult)
    (hm : event.httpMethod = "POST") (hb : event.body = some b)
    (hbe : b.data.isEmpty = false) (hp : jsonParse b = .ok rb)
    (hk : strTruthy env.geminiApiKey = true) :
    (geminiShapeOk result = false →
      GeminiProxy.handler jsonParse (fun _ _ => .reply status (.ok result)) env event =
        { statusCode := 500,
          body := .msgDetails "Failed to get a valid response from Gemini API." result } ∧
      GeminiRecommendationsProxy.handler jsonParse (fun _ _ => .reply status (.ok result)) env event =
        { statusCode := 500,
          body := .msgDetails "Failed to get a valid response from Gemini API." result }) ∧
    (Part000.shapeOk result = false → strTruthy rb.prompt = true →
      Part000.handler jsonParse (fun _ _ => .reply status (.ok result)) env event =
        { statusCode := if status = 0 then 500 else status,
          body := .successFalse (Part000.errorMessage result) } ∧
      carriesUpstreamDetails (RespBody.successFalse (Part000.errorMessage result)) = false) := by
  constructor
  · intro hshape
    constructor
    · simp [GeminiProxy.handler, hm, hb, hbe, hp, hk, hshape]
    · simp [GeminiRecommendationsProxy.handler, hm, hb, hbe, hp, hk, hshape]
  · intro hshape hpr
    constructor
    · simp [Part000.handler, hm, hb, hp, hpr, hk, hshape]
    · rfl

/-- C4 witness: the amended theorem applied to a candidate-less upstream
reply, with upstream status 404 for part_000 and 500 for the other two. -/
theorem C4_shape_failure_witness :
    GeminiProxy.handler parsePromptHi
        (fun _ _ => .reply 404 (.ok { candidates := none, error := none }))
        { geminiApiKey := some "k" }
        { httpMethod := "POST", body := some "\x7b\"prompt\":\"hi\"\x7d" } =
      { statusCode := 500,
        body := .msgDetails "Failed to get a valid response from Gemini API."
          { candidates := none, error := none } } ∧
    Part000.handler parsePromptHi
        (fun _ _ => .reply 404 (.ok { candidates := none, error := none }))
        { geminiApiKey := some "k" }
        { httpMethod := "POST", body := some "\x7b\"prompt\":\"hi\"\x7d" } =
      { statusCode := 404, body := .successFalse "Unexpected response from Gemini API." } := by
  constructor
  · exact ((C4_shape_failure parsePromptHi { geminiApiKey := some "k" }
      { httpMethod := "POST", body := some "\x7b\"prompt\":\"hi\"\x7d" }
      "\x7b\"prompt\":\"hi\"\x7d" { prompt := some "hi" } 404
      { candidates := none, error := none } rfl rfl (by decide) rfl rfl).1 rfl).1
  · have h := ((C4_shape_failure parsePromptHi { geminiApiKey := some "k" }
      { httpMethod := "POST", body := some "\x7b\"prompt\":\"hi\"\x7d" }
      "\x7b\"prompt\":\"hi\"\x7d" { prompt := some "hi" } 404
      { candidates := none, error := none } rfl rfl (by decide) rfl rfl).2 rfl (by decide)).1
    simpa using h

/-- C9 counterexample: in part_000 a parse failure of the request body (a
thrown SyntaxError) is caught and converted to a 400 with a fixed message,
not to a 500 carrying the error message. -/
theorem C9_counterexample :
    Part000.handler parseFails (fun _ _ => .netError "down") { geminiApiKey := some "k" }
        { httpMethod := "POST", body := some "x" } =
      { statusCode := 400, body := .successFalse "Invalid JSON in request body." } ∧
    (Part000.handler parseFails (fun _ _ => .netError "down") { geminiApiKey := some "k" }
        { httpMethod := "POST", body := some "x" }).statusCode ≠ 500 := by
  exact ⟨by decide, by decide⟩

/-- C9 (amended): every thrown error is caught and mapped to a structured
response, never re-thrown and never retried (the handlers are total
functions of one fetch outcome).  In gemini-proxy.js and
gemini-recommendations-proxy.js every caught error — request-body parse
failure, network failure, or upstream-body parse failure — yields 500 with
the error message; in part_000 a request-body parse failure yields 400 with
a fixed message, while network and upstream-parse failures yield 500 with
the error message (or a fixed fallback when that message is empty). -/
theorem C9_errors_caught :
    (∀ (jsonParse : String → Except String RequestBody)
        (fetch : String → UpstreamPayload → FetchOutcome) (env : Env) (event : Event)
        (b e : String),
      event.httpMethod = "POST" → event.body = some b → b.data.isEmpty = false →
      jsonParse b = .error e →
      GeminiProxy.handler jsonParse fetch env event =
        { statusCode := 500, body := .msgError "Internal server error." e } ∧
      GeminiRecommendationsProxy.handler jsonParse fetch env event =
        { statusCode := 500, body := .msgError "Internal server error." e } ∧
      Part000.handler jsonParse fetch env event =
        { statusCode := 400, body := .successFalse "Invalid JSON in request body." }) ∧
    (∀ (jsonParse : String → Except String RequestBody) (env : Env) (event : Event)
        (b : String) (rb : RequestBody) (m : String),
      event.httpMethod = "POST" → event.body = some b → b.data.isEmpty = false →
      jsonParse b = .ok rb → strTruthy rb.prompt = true → strTruthy env.geminiApiKey = true →
      GeminiProxy.handler jsonParse (fun _ _ => .netError m) env event =
        { statusCode := 500, body := .msgError "Internal server error." m } ∧
      GeminiRecommendationsProxy.handler jsonParse (fun _ _ => .netError m) env event =
        { statusCode := 500, body := .msgError "Internal server error." m } ∧
      Part000.handler jsonParse (fun _ _ => .netError m) env event =
        { statusCode := 500, body := .successFalse (Part000.catchMessage m) }) ∧
    (∀ (jsonParse : String → Except String RequestBody) (env : Env) (event : Event)
        (b : String) (rb : RequestBody) (status : Nat) (m : String),
      event.httpMethod = "POST" → event.body = some b → b.data.isEmpty = false →
      jsonParse b = .ok rb → strTruthy rb.prompt = true → strTruthy env.geminiApiKey = true →
      GeminiProxy.handler jsonParse (fun _ _ => .reply status (.error m)) env event =
        { statusCode := 500, body := .msgError "Internal server error." m } ∧
      GeminiRecommendationsProxy.handler jsonParse (fun _ _ => .reply status (.error m)) env event =
        { statusCode := 500, body := .msgError "Internal server error." m } ∧
      Part000.handler jsonParse (fun _ _ => .reply status (.error m)) env event =
        { statusCode := 500, body := .successFalse (Part000.catchMessage m) }) := by
  refine ⟨?_, ?_, ?_⟩
  · intro jsonParse fetch env event b e hm hb hbe hp
    refine ⟨?_, ?_, ?_⟩ <;>
      simp [GeminiProxy.handler, GeminiRecommendationsProxy.handler, Part000.handler,
        hm, hb, hbe, hp]
  · intro jsonParse env event b rb m hm hb hbe hp hpr hk
    refine ⟨?_, ?_, ?_⟩ <;>
      simp [GeminiProxy.handler, GeminiRecommendationsProxy.handler, Part000.handler,
        hm, hb, hbe, hp, hpr, hk]
  · intro jsonParse env event b rb status m hm hb hbe hp hpr hk
    refine ⟨?_, ?_, ?_⟩ <;>
      simp [GeminiProxy.handler, GeminiRecommendationsProxy.handler, Part000.handler,
        hm, hb, hbe, hp, hpr, hk]

/-- C9 witness: the amended theorem applied to a request-body parse failure
and to a network failure with message "socket hang up". -/
theorem C9_errors_caught_witness :
    GeminiProxy.handler parseFails (fun _ _ => .netError "down") { geminiApiKey := some "k" }
        { httpMethod := "POST", body := some "x" } =
      { statusCode := 500,
        body := .msgError "Internal server error."
          "SyntaxError: Unexpected token x in JSON at position 0" } ∧
    Part000.handler parsePromptHi (fun _ _ => .netError "socket hang up")
        { geminiApiKey := some "k" }
        { httpMethod := "POST", body := some "\x7b\"prompt\":\"hi\"\x7d" } =
      { statusCode := 500, body := .successFalse (Part000.catchMessage "socket hang up") } := by
  constructor
  · exact (C9_errors_caught.1 parseFails (fun _ _ => .netError "down")
      { geminiApiKey := some "k" } { httpMethod := "POST", body := some "x" }
      "x" _ rfl rfl (by decide) rfl).1
  · exact (C9_errors_caught.2.1 parsePromptHi { geminiApiKey := some "k" }
      { httpMethod := "POST", body := some "\x7b\"prompt\":\"hi\"\x7d" }
      "\x7b\"prompt\":\"hi\"\x7d" { prompt := some "hi" } "socket hang up"
      rfl rfl (by decide) rfl (by decide) rfl).2.2

/-- C10: in gemini-proxy.js and gemini-recommendations-proxy.js, whose
shape checks test `candidates[0].content.parts[0].text` for truthiness, an
upstream reply that is otherwise well-formed but whose text field is the
empty string fails shape validation and yields the 500 diagnostic response,
not a 200 with an empty response string. -/
theorem C10_empty_text_rejected (jsonParse : String → Except String RequestBody)
    (env : Env) (event : Event) (b : String) (rb : RequestBody) (status : Nat)
    (cs : List Candidate) (ps : List ResultPart) (er : Option ApiError)
    (hm : event.httpMethod = "POST") (hb : event.body = some b)
    (hbe : b.data.isEmpty = false) (hp : jsonParse b = .ok rb)
    (hk : strTruthy env.geminiApiKey = true) :
    GeminiProxy.handler jsonParse
        (fun _ _ => .reply status (.ok
          ⟨some ({ content := some { parts := some ({ text := some "" } :: ps) } } :: cs), er⟩))
        env event =
      { statusCode := 500,
        body := .msgDetails "Failed to get a valid response from Gemini API."
          ⟨some ({ content := some { parts := some ({ text := some "" } :: ps) } } :: cs), er⟩ } ∧
    GeminiRecommendationsProxy.handler jsonParse
        (fun _ _ => .reply status (.ok
          ⟨some ({ content := some { parts := some ({ text := some "" } :: ps) } } :: cs), er⟩))
        env event =
      { statusCode := 500,
        body := .msgDetails "Failed to get a valid response from Gemini API."
          ⟨some ({ content := some { parts := some ({ text := some "" } :: ps) } } :: cs), er⟩ } := by
  have hsh : geminiShapeOk
      ⟨some ({ content := some { parts := some ({ text := some "" } :: ps) } } :: cs), er⟩ = false := rfl
  constructor
  · simp [GeminiProxy.handler, hm, hb, hbe, hp, hk, hsh]
  · simp [GeminiRecommendationsProxy.handler, hm, hb, hbe, hp, hk, hsh]

/-- C10 witness: both truthiness-checking handlers reject a reply whose
single part carries the empty text. -/
theorem C10_empty_text_rejected_witness :
    GeminiProxy.handler parsePromptHi
        (fun _ _ => .reply 200 (.ok
          ⟨some [{ content := some { parts := some [{ text := some "" }] } }], none⟩))
        { geminiApiKey := some "k" }
        { httpMethod := "POST", body := some "\x7b\"prompt\":\"hi\"\x7d" } =
      { statusCode := 500,
        body := .msgDetails "Failed to get a valid response from Gemini API."
          ⟨some [{ content := some { parts := some [{ text := some "" }] } }], none⟩ } ∧
    GeminiRecommendationsProxy.handler parsePromptHi
        (fun _ _ => .reply 200 (.ok
          ⟨some [{ content := some { parts := some [{ text := some "" }] } }], none⟩))
        { geminiApiKey := some "k" }
        { httpMethod := "POST", body := some "\x7b\"prompt\":\"hi\"\x7d" } =
      { statusCode := 500,
        body := .msgDetails "Failed to get a valid response from Gemini API."
          ⟨some [{ content := some { parts := some [{ text := some "" }] } }], none⟩ } :=
  C10_empty_text_rejected parsePromptHi { geminiApiKey := some "k" }
    { httpMethod := "POST", body := some "\x7b\"prompt\":\"hi\"\x7d" }
    "\x7b\"prompt\":\"hi\"\x7d" { prompt := some "hi" } 200 [] [] none
    rfl rfl (by decide) rfl rfl

/-- Inversion helper: the gemini-proxy.js handler returns 200 only when the
single fetch resolved with a JSON body passing the shape check (which tests
the text part for truthiness). -/
theorem GeminiProxy.proxy_success_requires_shape (jsonParse : String → Except String RequestBody)
    (env : Env) (event : Event) (o : FetchOutcome)
    (h : (GeminiProxy.handler jsonParse (fun _ _ => o) env event).statusCode = 200) :
    ∃ s r, o = FetchOutcome.reply s (.ok r) ∧ geminiShapeOk r = true := by
  unfold GeminiProxy.handler at h
  split at h
  · simp at h
  · split at h
    · simp at h
    · split at h
      · simp at h
      · split at h
        · simp at h
        · split at h
          · simp at h
          · split at h
            · simp at h
            · simp at h
            · rename_i s r heq
              split at h
              · rename_i hshape
                exact ⟨s, r, heq, hshape⟩
              · simp at h

/-- Inversion helper: the gemini-recommendations-proxy.js handler returns
200 only when the fetch resolved with a JSON body passing the shape check. -/
theorem GeminiRecommendationsProxy.recs_success_requires_shape
    (jsonParse : String → Except String RequestBody)
    (env : Env) (event : Event) (o : FetchOutcome)
    (h : (GeminiRecommendationsProxy.handler jsonParse (fun _ _ => o) env event).statusCode = 200) :
    ∃ s r, o = FetchOutcome.reply s (.ok r) ∧ geminiShapeOk r = true := by
  unfold GeminiRecommendationsProxy.handler at h
  split at h
  · simp at h
  · split at h
    · simp at h
    · split at h
      · simp at h
      · split at h
        · simp at h
        · split at h
          · simp at h
          · split at h
            · simp at h
            · simp at h
            · rename_i s r heq
              split at h
              · rename_i hshape
                exact ⟨s, r, heq, hshape⟩
              · simp at h

/-- Inversion helper: the part_000 handler returns a success body (the
`success: true` shape) only when the fetch resolved with a success-range
HTTP status and a JSON body passing its shape check (which does not test
the text field).  The status code alone is not a success marker in this
variant: on shape failure it echoes the upstream status, which may itself
be 200. -/
theorem Part000.success_requires_ok_and_shape
    (jsonParse : String → Except String RequestBody)
    (env : Env) (event : Event) (o : FetchOutcome) (x : Option String)
    (h : (Part000.handler jsonParse (fun _ _ => o) env event).body = RespBody.successTrue x) :
    ∃ s r, o = FetchOutcome.reply s (.ok r) ∧
      Part000.responseOk s = true ∧ Part000.shapeOk r = true := by
  unfold Part000.handler at h
  split at h
  · simp at h
  · split at h
    · simp at h
    · split at h
      · simp at h
      · split at h
        · simp at h
        · split at h
          · simp at h
          · split at h
            · simp at h
            · simp at h
            · rename_i s r heq
              split at h
              · rename_i hok
                rw [Bool.and_eq_true] at hok
                exact ⟨s, r, heq, hok.1, hok.2⟩
              · simp at h

/-- C2 counterexample: part_000 returns a 200 success for a POST request
with a valid prompt and key when the upstream reply has a candidate whose
first part carries no text field at all, so in that variant success does
not require the text part to be present (the response field is the dropped
`undefined`). -/
theorem C2_counterexample :
    Part000.handler parsePromptHi
        (fun _ _ => .reply 200 (.ok
          ⟨some [{ content := some { parts := some [{ text := none }] } }], none⟩))
        { geminiApiKey := some "k" }
        { httpMethod := "POST", body := some "\x7b\"prompt\":\"hi\"\x7d" } =
      { statusCode := 200, body := .successTrue none } := by
  decide

/-- C2 (amended): for a POST request with a truthy prompt, a configured
key, and an upstream reply that is well-formed (non-empty candidates with a
truthy text part), gemini-proxy.js returns 200 with the fence-stripped
text and gemini-recommendations-proxy.js returns 200 with the raw text;
part_000 does so when the upstream status is additionally in the success
range.  Conversely a 200 from gemini-proxy.js or
gemini-recommendations-proxy.js requires the shape check including a
truthy text part, while a success body from part_000 requires a
success-range status and its shape check, which does not test the text
field (in part_000 the status code alone is not a success marker: shape
failure echoes the upstream status, which may itself be 200). -/
theorem C2_success_path :
    (∀ (jsonParse : String → Except String RequestBody) (env : Env) (event : Event)
        (b : String) (rb : RequestBody) (status : Nat) (t : String)
        (cs : List Candidate) (ps : List ResultPart) (er : Option ApiError),
      event.httpMethod = "POST" → event.body = some b → b.data.isEmpty = false →
      jsonParse b = .ok rb → strTruthy rb.prompt = true →
      strTruthy env.geminiApiKey = true → t.data.isEmpty = false →
      GeminiProxy.handler jsonParse
          (fun _ _ => .reply status (.ok
            ⟨some ({ content := some { parts := some ({ text := some t } :: ps) } } :: cs), er⟩))
          env event =
        { statusCode := 200, body := .successTrue (some (GeminiProxy.stripFence t)) } ∧
      GeminiRecommendationsProxy.handler jsonParse
          (fun _ _ => .reply status (.ok
            ⟨some ({ content := some { parts := some ({ text := some t } :: ps) } } :: cs), er⟩))
          env event =
        { statusCode := 200, body := .successTrue (some t) }) ∧
    (∀ (jsonParse : String → Except String RequestBody) (env : Env) (event : Event)
        (b : String) (rb : RequestBody) (status : Nat) (t : String)
        (cs : List Candidate) (ps : List ResultPart) (er : Option ApiError),
      event.httpMethod = "POST" → event.body = some b → b.data.isEmpty = false →
      jsonParse b = .ok rb → strTruthy rb.prompt = true →
      strTruthy env.geminiApiKey = true → Part000.responseOk status = true →
      Part000.handler jsonParse
          (fun _ _ => .reply status (.ok
            ⟨some ({ content := some { parts := some ({ text := some t } :: ps) } } :: cs), er⟩))
          env event =
        { statusCode := 200, body := .successTrue (some t) }) ∧
    (∀ (jsonParse : String → Except String RequestBody) (env : Env) (event : Event)
        (o : FetchOutcome),
      (GeminiProxy.handler jsonParse (fun _ _ => o) env event).statusCode = 200 →
      ∃ s r, o = FetchOutcome.reply s (.ok r) ∧ geminiShapeOk r = true) ∧
    (∀ (jsonParse : String → Except String RequestBody) (env : Env) (event : Event)
        (o : FetchOutcome),
      (GeminiRecommendationsProxy.handler jsonParse (fun _ _ => o) env event).statusCode = 200 →
      ∃ s r, o = FetchOutcome.reply s (.ok r) ∧ geminiShapeOk r = true) ∧
    (∀ (jsonParse : String → Except String RequestBody) (env : Env) (event : Event)
        (o : FetchOutcome) (x : Option String),
      (Part000.handler jsonParse (fun _ _ => o) env event).body = RespBody.successTrue x →
      ∃ s r, o = FetchOutcome.reply s (.ok r) ∧
        Part000.responseOk s = true ∧ Part000.shapeOk r = true) := by
  refine ⟨?_, ?_,
    GeminiProxy.proxy_success_requires_shape,
    GeminiRecommendationsProxy.recs_success_requires_shape,
    Part000.success_requires_ok_and_shape⟩
  · intro jsonParse env event b rb status t cs ps er hm hb hbe hp hpr hk ht
    have hsh : geminiShapeOk
        ⟨some ({ content := some { parts := some ({ text := some t } :: ps) } } :: cs), er⟩ = true := by
      simp [geminiShapeOk, strTruthy, ht]
    constructor
    · simp [GeminiProxy.handler, hm, hb, hbe, hp, hk, hsh, firstText]
    · simp [GeminiRecommendationsProxy.handler, hm, hb, hbe, hp, hk, hsh, firstText]
  · intro jsonParse env event b rb status t cs ps er hm hb hbe hp hpr hk hok
    simp [Part000.handler, hm, hb, hp, hpr, hk, hok, Part000.shapeOk, firstText]

/-- C2 witness: the amended theorem applied to the prompt "hi", the key
"k", an upstream reply of status 200 carrying the text "hi", and (for the
converse parts) the same concrete 200-producing run. -/
theorem C2_success_path_witness :
    GeminiProxy.handler parsePromptHi
        (fun _ _ => .reply 200 (.ok
          ⟨some [{ content := some { parts := some [{ text := some "hi" }] } }], none⟩))
        { geminiApiKey := some "k" }
        { httpMethod := "POST", body := some "\x7b\"prompt\":\"hi\"\x7d" } =
      { statusCode := 200, body := .successTrue (some "hi") } ∧
    Part000.handler parsePromptHi
        (fun _ _ => .reply 200 (.ok
          ⟨some [{ content := some { parts := some [{ text := some "hi" }] } }], none⟩))
        { geminiApiKey := some "k" }
        { httpMethod := "POST", body := some "\x7b\"prompt\":\"hi\"\x7d" } =
      { statusCode := 200, body := .successTrue (some "hi") } ∧
    (∃ s r, (FetchOutcome.reply 200 (.ok
        (⟨some [{ content := some { parts := some [{ text := some "hi" }] } }], none⟩ : GeminiResult))) =
        FetchOutcome.reply s (.ok r) ∧ geminiShapeOk r = true) := by
  refine ⟨?_, ?_, ?_⟩
  · exact ((C2_success_path.1 parsePromptHi { geminiApiKey := some "k" }
      { httpMethod := "POST", body := some "\x7b\"prompt\":\"hi\"\x7d" }
      "\x7b\"prompt\":\"hi\"\x7d" { prompt := some "hi" } 200 "hi" [] [] none
      rfl rfl (by decide) rfl (by decide) rfl (by decide)).1).trans (by decide)
  · exact (C2_success_path.2.1 parsePromptHi { geminiApiKey := some "k" }
      { httpMethod := "POST", body := some "\x7b\"prompt\":\"hi\"\x7d" }
      "\x7b\"prompt\":\"hi\"\x7d" { prompt := some "hi" } 200 "hi" [] [] none
      rfl rfl (by decide) rfl (by decide) rfl (by decide))
  · exact C2_success_path.2.2.1 parsePromptHi { geminiApiKey := some "k" }
      { httpMethod := "POST", body := some "\x7b\"prompt\":\"hi\"\x7d" }
      (.reply 200 (.ok
        ⟨some [{ content := some { parts := some [{ text := some "hi" }] } }], none⟩))
      (by decide)

end HealthMax
